import Mathlib

/-!
Shallow embedding of the DDPG training harness (rollout.py and train.py).

Numeric scalars (rewards, Q-estimates, scores) are modelled as rationals;
the environment and the agent are external collaborators and are modelled
as deterministic oracles (functions of the step index and their inputs).
Checkpoint saves, summary writes and transitions handed to agent memory
are recorded as explicit effect values.
-/

namespace DDPG

/-- A Python runtime error raised by the orchestration code. -/
inductive PyError where
  | attributeError
  | typeError
  | assertionError
deriving DecidableEq, Repr

/-- One element of the (heterogeneous) Python list handed to
agent.remember / appended to episode_batch. -/
inductive Field where
  | arr (v : List ℚ)
  | num (v : ℚ)
  | int (n : Nat)
deriving DecidableEq, Repr

/-- Observation dictionary returned by the gym-style environment used by
rollout.py: keys observation, desired_goal, achieved_goal. -/
structure Obs where
  observation : List ℚ
  desired_goal : List ℚ
  achieved_goal : List ℚ
deriving DecidableEq, Repr

/-- A checkpoint save recorded by tf.train.Saver.save: the path category
(P for periodic, B for best) and the episode it is formatted with. -/
structure Ckpt where
  category : String
  episode : Nat
deriving DecidableEq, Repr

/-- The checkpoint path template p_ckpt = "__checkpoints/" with category and
episode substituted. -/
def ckptPath (c : Ckpt) : String :=
  "__checkpoints/" ++ c.category ++ "_" ++ toString c.episode

/-- One scalar summary written to the summary sink. -/
structure SummaryVal where
  tag : String
  simple_value : ℚ
  counter : Nat
deriving DecidableEq, Repr

/-- The rollout configuration mapping merged into the generator state
(config_g2g-style keys).  periodic_ckpt is int-or-False in Python; 0 models
False / absent (both are falsy and both disable the periodic checkpoint). -/
structure Config where
  render : Bool
  train_cycles_per_ts : Nat
  periodic_ckpt : Nat
  save_best : Bool
  n_episodes : Nat
  step_sleep : Option ℚ
deriving DecidableEq, Repr

/-- Instance state of RolloutGenerator (its __dict__ after __init__ merged
the config).  mean_eq / mean_er do not exist in Python before the first
update_stats call; here they carry 0 until then (no claim reads them before
update_stats has run). -/
structure GenState where
  name : String
  eval : Bool
  best_score : ℚ
  summary : Option Unit
  summary_writer : Bool
  eval_counter : Nat
  render : Bool
  train_cycles_per_ts : Nat
  periodic_ckpt : Nat
  save_best : Bool
  n_episodes : Nat
  step_sleep : Option ℚ
  q_total : ℚ
  r_total : ℚ
  t_steps : Nat
  episode : Nat
  success : Nat
  mean_eq : ℚ
  mean_er : ℚ
deriving DecidableEq, Repr

/-- RolloutGenerator.__init__: best_score starts at 0, summary is a fresh
tf.Summary() (never None), the config is merged in, missing periodic_ckpt
and save_best default to False, and reset() zeroes the episode statistics. -/
def RolloutGenerator.init (cfg : Config) (isEval : Bool) (sink : Bool) : GenState :=
  { name := (if isEval then "*EVAL" else "TRAIN") ++ "_ROLLOUT"
    eval := isEval
    best_score := 0
    summary := some ()
    summary_writer := sink
    eval_counter := 0
    render := cfg.render
    train_cycles_per_ts := cfg.train_cycles_per_ts
    periodic_ckpt := cfg.periodic_ckpt
    save_best := cfg.save_best
    n_episodes := cfg.n_episodes
    step_sleep := cfg.step_sleep
    q_total := 0
    r_total := 0
    t_steps := 0
    episode := 0
    success := 0
    mean_eq := 0
    mean_er := 0 }

/-- RolloutGenerator.reset: zeroes the running statistics (and nothing else). -/
def GenState.reset (s : GenState) : GenState :=
  { s with q_total := 0, r_total := 0, t_steps := 0, episode := 0, success := 0 }

/-- RolloutGenerator.update_stats: accumulate episodic totals and recompute
the running means by dividing by the episode counter. -/
def update_stats (s : GenState) (eps_q eps_r : ℚ) (t : Nat) : GenState :=
  let q_total := s.q_total + eps_q
  let r_total := s.r_total + eps_r
  { s with
    q_total := q_total
    r_total := r_total
    t_steps := s.t_steps + t
    mean_eq := q_total / (s.episode : ℚ)
    mean_er := r_total / (s.episode : ℚ) }

/-- RolloutGenerator.create_checkpoint: a periodic checkpoint when
periodic_ckpt is truthy and divides the episode counter; then, in eval mode
with save_best on, a best checkpoint when mean_er strictly exceeds
best_score, updating best_score to mean_er. -/
def create_checkpoint (s : GenState) : GenState × List Ckpt :=
  let ckP : List Ckpt :=
    if s.periodic_ckpt ≠ 0 ∧ s.episode % s.periodic_ckpt = 0 then
      [⟨"P", s.episode⟩]
    else []
  if s.eval ∧ s.save_best ∧ s.mean_er > s.best_score then
    ({ s with best_score := s.mean_er }, ckP ++ [⟨"B", s.episode⟩])
  else (s, ckP)

/-- RolloutGenerator.done: the episode budget is exhausted. -/
def GenState.done (s : GenState) : Bool :=
  decide (s.n_episodes ≤ s.episode)

/-- An evaluation-mode generator state poised for a create_checkpoint call:
save_best on, periodic checkpointing off, running mean m, best score b,
episode counter ep. -/
def evalCkptState (m b : ℚ) (ep : Nat) : GenState :=
  { RolloutGenerator.init
      ⟨false, 1, 0, true, 3, none⟩ true true with
    mean_er := m, best_score := b, episode := ep }

/-- Drive create_checkpoint over a list of successive running means (one per
rollout, episodes numbered from ep), threading best_score, and collect the
episodes at which a best checkpoint is saved. -/
def bestCkptFires : List ℚ → ℚ → Nat → List Nat
  | [], _, _ => []
  | m :: ms, b, ep =>
    let r := create_checkpoint (evalCkptState m b ep)
    (if Ckpt.mk "B" ep ∈ r.2 then [ep] else []) ++
      bestCkptFires ms r.1.best_score (ep + 1)

/-- Drive create_checkpoint over episodes 1..n in a non-eval state with
periodicity p, collecting the episodes at which a periodic checkpoint fires. -/
def periodicFires (p n : Nat) : List Nat :=
  (List.range n).filterMap (fun i =>
    let s := { RolloutGenerator.init ⟨false, 1, p, false, n, none⟩ false true with
               episode := i + 1 }
    if Ckpt.mk "P" (i + 1) ∈ (create_checkpoint s).2 then some (i + 1) else none)

/-- Result of agent.step: the raw action a, the possibly-discretized action
u, and the Q-estimate q. -/
structure AgentOut where
  a : List ℚ
  u : List ℚ
  q : ℚ
deriving DecidableEq, Repr

/-- The DDPG agent as a deterministic oracle: step takes the flattened
observation (np.hstack of observation and desired_goal) and the explore
flag.  remember and train are effectful only; their calls are recorded by
the loop state. -/
structure AgentModel where
  step : List ℚ → Bool → AgentOut

/-- Result of env.step: next observation dictionary, reward, done flag and
the is_success entry of the info dictionary. -/
structure EnvStep where
  x2 : Obs
  r : ℚ
  done : Bool
  is_success : Bool
deriving DecidableEq, Repr

/-- The gym environment as a deterministic oracle: reset gives the initial
observation; step is indexed by the number of steps taken so far (the
environment's hidden state) and by the action. -/
structure EnvModel where
  reset : Obs
  step : Nat → List ℚ → EnvStep
  max_episode_steps : Nat

/-- The transition list handed to agent.remember, in source order:
[x.observation, x.desired_goal, x.achieved_goal, u, r, x2.observation,
 x2.desired_goal, int(done)]. -/
def transitionFields (x : Obs) (u : List ℚ) (r : ℚ) (x2 : Obs) (done : Bool) :
    List Field :=
  [Field.arr x.observation, Field.arr x.desired_goal, Field.arr x.achieved_goal,
   Field.arr u, Field.num r, Field.arr x2.observation, Field.arr x2.desired_goal,
   Field.int (if done then 1 else 0)]

/-- Local state of the while loop in generate_rollout, plus the effects it
accumulates: transitions remembered, agent.train() call count, the explore
flags passed to agent.step, and the info of the last env.step (lastInfo is
none iff no step has been taken; in Python the name info then still refers
to the imported util.info module, so subscripting it raises). -/
structure LoopState where
  t : Nat
  x : Obs
  done : Bool
  episodic_q : ℚ
  episodic_r : ℚ
  memory : List (List Field)
  train_calls : Nat
  explore_flags : List Bool
  lastInfo : Option Bool

/-- One iteration of the while-loop body of generate_rollout: agent.step
with explore = not eval, env.step, agent.remember (unconditionally), stat
updates, and train_cycles_per_ts agent.train() calls when not in eval mode
(the assert on the non-empty string literal is a no-op, see
train_branch_assert). -/
def stepOnce (E : EnvModel) (A : AgentModel) (isEval : Bool) (tcpts : Nat)
    (s : LoopState) : LoopState :=
  let ag := A.step (s.x.observation ++ s.x.desired_goal) (!isEval)
  let es := E.step s.t ag.a
  { t := s.t + 1
    x := es.x2
    done := es.done
    episodic_q := s.episodic_q + ag.q
    episodic_r := s.episodic_r + es.r
    memory := s.memory ++ [transitionFields s.x ag.u es.r es.x2 es.done]
    train_calls := s.train_calls + (if isEval then 0 else tcpts)
    explore_flags := s.explore_flags ++ [!isEval]
    lastInfo := some es.is_success }

/-- The while loop of generate_rollout: run while not done and t below the
step cap.  fuel bounds the recursion; it is instantiated with
max_episode_steps, which dominates the loop guard since t increases by one
per iteration. -/
def runLoop (E : EnvModel) (A : AgentModel) (isEval : Bool) (tcpts : Nat) :
    Nat → LoopState → LoopState
  | 0, s => s
  | fuel + 1, s =>
    if s.done = false ∧ s.t < E.max_episode_steps then
      runLoop E A isEval tcpts fuel (stepOnce E A isEval tcpts s)
    else s

/-- Loop state at entry: t = 0, done = False, totals 0, x = env.reset(). -/
def initLoopState (E : EnvModel) : LoopState :=
  { t := 0, x := E.reset, done := false, episodic_q := 0, episodic_r := 0
    memory := [], train_calls := 0, explore_flags := [], lastInfo := none }

/-- The whole episode loop of generate_rollout, from env.reset() to loop
exit. -/
def rolloutLoopRun (E : EnvModel) (A : AgentModel) (isEval : Bool)
    (tcpts : Nat) : LoopState :=
  runLoop E A isEval tcpts E.max_episode_steps (initLoopState E)

/-- RolloutGenerator.update_summaries: in eval mode the eval counter is
bumped and used as the summary step, else the episode counter is used; two
scalars tagged name/episodic_r and name/episodic_q are then handed to
summary_writer.add_summary.  When no summary_writer was configured (None),
that attribute access raises AttributeError. -/
def update_summaries (s : GenState) (episodic_r episodic_q : ℚ) :
    Except PyError (GenState × List SummaryVal) :=
  let s1 := if s.eval then { s with eval_counter := s.eval_counter + 1 } else s
  let counter := if s.eval then s1.eval_counter else s1.episode
  let sums : List SummaryVal :=
    [⟨s.name ++ "/episodic_r", episodic_r, counter⟩,
     ⟨s.name ++ "/episodic_q", episodic_q, counter⟩]
  if s.summary_writer then Except.ok (s1, sums)
  else Except.error PyError.attributeError

/-- The externally observable effects of one generate_rollout call. -/
structure RolloutEffects where
  steps : Nat
  memory : List (List Field)
  train_calls : Nat
  explore_flags : List Bool
  summaries : List SummaryVal
  ckpts : List Ckpt
deriving DecidableEq, Repr

/-- The two statements right after the while loop of generate_rollout:
self.episode += 1 and self.update_stats(episodic_q, episodic_r, t). -/
def after_stats (s : GenState) (L : LoopState) : GenState :=
  update_stats { s with episode := s.episode + 1 } L.episodic_q L.episodic_r L.t

/-- The summary guard of generate_rollout: the condition tested is
self.summary is not None (NOT the summary sink), so when it holds,
update_summaries runs whether or not a sink is configured. -/
def summary_step (s2 : GenState) (L : LoopState) :
    Except PyError (GenState × List SummaryVal) :=
  if s2.summary.isSome then update_summaries s2 L.episodic_r L.episodic_q
  else Except.ok (s2, [])

/-- The eval-mode success bump: if self.eval and info is_success,
self.success += 1.  In training mode the counter is never touched. -/
def success_step (s3 : GenState) (succ : Bool) : GenState :=
  if s3.eval && succ then { s3 with success := s3.success + 1 } else s3

/-- The tail of generate_rollout after the while loop: bump the episode
counter and update_stats, the (vacuous) summary guard on self.summary,
update_summaries, eval-mode success bump from the final info, and
create_checkpoint.  Subscripting info when no step ran raises TypeError
(info is then the imported util.info module). -/
def post_loop (s : GenState) (L : LoopState) :
    Except PyError (GenState × RolloutEffects) :=
  match summary_step (after_stats s L) L with
  | Except.error e => Except.error e
  | Except.ok (s3, sums) =>
    match L.lastInfo with
    | none => Except.error PyError.typeError
    | some succ =>
      Except.ok ((create_checkpoint (success_step s3 succ)).1,
        { steps := L.t, memory := L.memory, train_calls := L.train_calls
          explore_flags := L.explore_flags, summaries := sums
          ckpts := (create_checkpoint (success_step s3 succ)).2 })

/-- RolloutGenerator.generate_rollout: run the episode loop, then the
post-loop bookkeeping. -/
def generate_rollout (E : EnvModel) (A : AgentModel) (s : GenState) :
    Except PyError (GenState × RolloutEffects) :=
  post_loop s (rolloutLoopRun E A s.eval s.train_cycles_per_ts)

/-- Python truthiness of a string: non-empty strings are truthy. -/
def pyTruthyStr (s : String) : Bool :=
  decide (s.length ≠ 0)

/-- A Python assert statement on an already-evaluated condition. -/
def pyAssertStmt (cond : Bool) : Except PyError Unit :=
  if cond then Except.ok () else Except.error PyError.assertionError

/-- The statement at the top of the training branch of generate_rollout:
it asserts the string literal train_cycles_per_ts itself, not the presence
of that key in the configuration. -/
def train_branch_assert : Except PyError Unit :=
  pyAssertStmt (pyTruthyStr "train_cycles_per_ts")

/-! The script-level train loop of train.py (a near-duplicate of the
generator's rollout loop, specialized to the G2Goal environment). -/

/-- Observation dictionary of the G2Goal environment: keys obs, goal, ag. -/
structure GObs where
  obs : List ℚ
  goal : List ℚ
  ag : List ℚ
deriving DecidableEq, Repr

/-- Result of one G2Goal env.step: new observation, reward, done flag and
the dist entry of the info dictionary. -/
structure TStep where
  new_obs : GObs
  r : ℚ
  done : Bool
  dist : ℚ
deriving DecidableEq, Repr

/-- The G2Goal environment as a deterministic oracle; max_episode_steps
models env._max_episode_steps. -/
structure TEnv where
  reset : GObs
  step : Nat → List ℚ → TStep
  get_current_distance : ℚ
  max_episode_steps : Nat

/-- The DDPG agent as seen by train.py: step takes the flattened obs and
the is_u_discrete flag and returns (action, u, q). -/
structure TAgent where
  step : List ℚ → Bool → AgentOut

/-- The transition list appended to episode_batch in train.py, in source
order: [obs, goal, ag, u, r, new_obs, new_goal, int(done)]. -/
def gTransitionFields (o : GObs) (u : List ℚ) (r : ℚ) (o2 : GObs)
    (done : Bool) : List Field :=
  [Field.arr o.obs, Field.arr o.goal, Field.arr o.ag, Field.arr u,
   Field.num r, Field.arr o2.obs, Field.arr o2.goal,
   Field.int (if done then 1 else 0)]

/-- Local state of the per-episode for-loop of train.py. i counts executed
iterations; episode_batch collects transitions flushed into agent memory
after the loop; train_calls counts ddpg_agent.train() calls. -/
structure TLoop where
  i : Nat
  obs : GObs
  episodic_r : ℚ
  episodic_q : ℚ
  episode_batch : List (List Field)
  train_calls : Nat
  min_d2goal : ℚ
  doneFlag : Bool

/-- One iteration of the train.py episode loop body: agent step, action
scaling, env step, batch append, min-distance tracking, reward/Q
accumulation and exactly 5 ddpg_agent.train() calls (the literal range(5),
independent of any configuration).  The numeric action-scaling map
scale_action of train.py is (u+1)/2 * [0.2, pi/2] + [0, -pi/4]; it involves
the irrational pi, so it is passed in here as an opaque map on actions — no
claim depends on its values, only on where it is applied. -/
def trainStepBody (E : TEnv) (Ag : TAgent) (scale : List ℚ → List ℚ)
    (is_u_discrete : Bool) (s : TLoop) : TLoop :=
  let ao := Ag.step (s.obs.obs ++ s.obs.goal) is_u_discrete
  let es := E.step s.i (scale ao.a)
  { i := s.i + 1
    obs := es.new_obs
    episodic_r := s.episodic_r + es.r
    episodic_q := s.episodic_q + ao.q
    episode_batch := s.episode_batch ++
      [gTransitionFields s.obs ao.u es.r es.new_obs es.done]
    train_calls := s.train_calls + 5
    min_d2goal := if es.dist < s.min_d2goal then es.dist else s.min_d2goal
    doneFlag := es.done }

/-- The for i in range(max_episode_steps) loop of train.py: the body always
runs, then the loop breaks if done was returned (the break sits after the
training calls). -/
def trainEpisodeLoop (E : TEnv) (Ag : TAgent) (scale : List ℚ → List ℚ)
    (is_u_discrete : Bool) : Nat → TLoop → TLoop
  | 0, s => s
  | fuel + 1, s =>
    if (trainStepBody E Ag scale is_u_discrete s).doneFlag then
      trainStepBody E Ag scale is_u_discrete s
    else
      trainEpisodeLoop E Ag scale is_u_discrete fuel
        (trainStepBody E Ag scale is_u_discrete s)

/-- One full episode of train.py from env.reset() through the step loop. -/
def trainEpisodeRun (E : TEnv) (Ag : TAgent) (scale : List ℚ → List ℚ)
    (is_u_discrete : Bool) : TLoop :=
  trainEpisodeLoop E Ag scale is_u_discrete E.max_episode_steps
    { i := 0, obs := E.reset, episodic_r := 0, episodic_q := 0
      episode_batch := [], train_calls := 0
      min_d2goal := E.get_current_distance, doneFlag := false }

/-- The best-score update of the periodic evaluation block of train.py:
when the aggregate evaluation score strictly exceeds
current_best_eval_score, the best is replaced and a checkpoint is saved at
the nb_policy path with the episode as global step. -/
def best_eval_update (best m_eval_score : ℚ) (episode : Nat) :
    ℚ × List Ckpt :=
  if m_eval_score > best then (m_eval_score, [⟨"nb_policy", episode⟩])
  else (best, [])

/-! Helper lemmas about the embedded operations. -/

/-- create_checkpoint leaves the state unchanged or only raises best_score
to mean_er (when the best-checkpoint branch fires). -/
theorem create_checkpoint_fst_cases (s : GenState) :
    (create_checkpoint s).1 = s ∨
      ((create_checkpoint s).1 = { s with best_score := s.mean_er } ∧
        s.best_score < s.mean_er) := by
  unfold create_checkpoint
  by_cases h : s.eval = true ∧ s.save_best = true ∧ s.mean_er > s.best_score
  · exact Or.inr ⟨by simp only [if_pos h], h.2.2⟩
  · exact Or.inl (by simp only [if_neg h])

theorem create_checkpoint_episode (s : GenState) :
    (create_checkpoint s).1.episode = s.episode := by
  rcases create_checkpoint_fst_cases s with h | ⟨h, _⟩ <;> rw [h]

theorem create_checkpoint_n_episodes (s : GenState) :
    (create_checkpoint s).1.n_episodes = s.n_episodes := by
  rcases create_checkpoint_fst_cases s with h | ⟨h, _⟩ <;> rw [h]

theorem create_checkpoint_success (s : GenState) :
    (create_checkpoint s).1.success = s.success := by
  rcases create_checkpoint_fst_cases s with h | ⟨h, _⟩ <;> rw [h]

theorem create_checkpoint_best_mono (s : GenState) :
    s.best_score ≤ (create_checkpoint s).1.best_score := by
  rcases create_checkpoint_fst_cases s with h | ⟨h, hlt⟩ <;> rw [h]
  exact le_of_lt hlt

/-- update_summaries succeeds exactly when a summary sink is configured,
and then only bumps the eval counter (in eval mode). -/
theorem update_summaries_ok (s : GenState) (er eq : ℚ) (s' : GenState)
    (l : List SummaryVal) (h : update_summaries s er eq = Except.ok (s', l)) :
    s' = s ∨ s' = { s with eval_counter := s.eval_counter + 1 } := by
  simp only [update_summaries] at h
  split at h
  · rw [Except.ok.injEq, Prod.mk.injEq] at h
    obtain ⟨h1, -⟩ := h
    by_cases he : s.eval = true
    · right; rw [if_pos he] at h1; exact h1.symm
    · left; rw [if_neg he] at h1; exact h1.symm
  · exact absurd h (by simp)

theorem after_stats_fields (s : GenState) (L : LoopState) :
    (after_stats s L).episode = s.episode + 1 ∧
    (after_stats s L).n_episodes = s.n_episodes ∧
    (after_stats s L).eval = s.eval ∧
    (after_stats s L).best_score = s.best_score ∧
    (after_stats s L).success = s.success ∧
    (after_stats s L).save_best = s.save_best ∧
    (after_stats s L).summary = s.summary ∧
    (after_stats s L).summary_writer = s.summary_writer :=
  ⟨rfl, rfl, rfl, rfl, rfl, rfl, rfl, rfl⟩

theorem summary_step_ok (s2 : GenState) (L : LoopState) (s3 : GenState)
    (sums : List SummaryVal) (h : summary_step s2 L = Except.ok (s3, sums)) :
    s3 = s2 ∨ s3 = { s2 with eval_counter := s2.eval_counter + 1 } := by
  unfold summary_step at h
  split at h
  · exact update_summaries_ok s2 L.episodic_r L.episodic_q s3 sums h
  · rw [Except.ok.injEq, Prod.mk.injEq] at h
    exact Or.inl h.1.symm

theorem summary_step_fields (s2 : GenState) (L : LoopState) (s3 : GenState)
    (sums : List SummaryVal) (h : summary_step s2 L = Except.ok (s3, sums)) :
    s3.episode = s2.episode ∧ s3.n_episodes = s2.n_episodes ∧
    s3.eval = s2.eval ∧ s3.best_score = s2.best_score ∧
    s3.success = s2.success ∧ s3.save_best = s2.save_best ∧
    s3.mean_er = s2.mean_er := by
  rcases summary_step_ok s2 L s3 sums h with h' | h' <;> subst h' <;>
    exact ⟨rfl, rfl, rfl, rfl, rfl, rfl, rfl⟩

theorem success_step_fields (s3 : GenState) (succ : Bool) :
    (success_step s3 succ).episode = s3.episode ∧
    (success_step s3 succ).n_episodes = s3.n_episodes ∧
    (success_step s3 succ).eval = s3.eval ∧
    (success_step s3 succ).best_score = s3.best_score ∧
    (success_step s3 succ).save_best = s3.save_best ∧
    (success_step s3 succ).mean_er = s3.mean_er ∧
    (success_step s3 succ).success =
      s3.success + (if s3.eval && succ then 1 else 0) := by
  unfold success_step
  by_cases h : (s3.eval && succ) = true
  · rw [if_pos h, if_pos h]
    exact ⟨rfl, rfl, rfl, rfl, rfl, rfl, rfl⟩
  · rw [if_neg h, if_neg h]
    exact ⟨rfl, rfl, rfl, rfl, rfl, rfl, (Nat.add_zero _).symm⟩

/-- Shape of a successful post_loop call: the final state is
create_checkpoint applied to a state s4 whose bookkeeping fields relate to
the entry state as the source dictates. -/
theorem post_loop_ok_shape (s : GenState) (L : LoopState)
    (out : GenState × RolloutEffects) (h : post_loop s L = Except.ok out) :
    ∃ (succ : Bool) (s4 : GenState),
      L.lastInfo = some succ ∧
      out.1 = (create_checkpoint s4).1 ∧
      out.2.ckpts = (create_checkpoint s4).2 ∧
      s4.episode = s.episode + 1 ∧
      s4.n_episodes = s.n_episodes ∧
      s4.eval = s.eval ∧
      s4.best_score = s.best_score ∧
      s4.success = s.success + (if s.eval && succ then 1 else 0) := by
  unfold post_loop at h
  split at h
  · exact absurd h (by simp)
  next s3 sums heq =>
    split at h
    · exact absurd h (by simp)
    next succ hinfo =>
      rw [Except.ok.injEq] at h
      obtain ⟨he, hn, hv, hb, hs3, -, -⟩ :=
        summary_step_fields (after_stats s L) L s3 sums heq
      obtain ⟨ae, an, av, ab, as', -, -, -⟩ := after_stats_fields s L
      obtain ⟨ce, cn, cv, cb, -, -, cs⟩ := success_step_fields s3 succ
      refine ⟨succ, success_step s3 succ, hinfo, ?_, ?_, ?_, ?_, ?_, ?_, ?_⟩
      · rw [← h]
      · rw [← h]
      · rw [ce, he, ae]
      · rw [cn, hn, an]
      · rw [cv, hv, av]
      · rw [cb, hb, ab]
      · rw [cs, hs3, as', hv, av]

/-- Invariants preserved by the loop body under the loop guard are
preserved by the whole while loop. -/
theorem runLoop_inv (E : EnvModel) (A : AgentModel) (iE : Bool) (tc : Nat)
    (P : LoopState → Prop)
    (hstep : ∀ s, s.done = false → s.t < E.max_episode_steps → P s →
      P (stepOnce E A iE tc s)) :
    ∀ fuel s, P s → P (runLoop E A iE tc fuel s)
  | 0, _, hs => hs
  | fuel + 1, s, hs => by
    unfold runLoop
    split
    · next hc =>
      exact runLoop_inv E A iE tc P hstep fuel _ (hstep s hc.1 hc.2 hs)
    · exact hs

theorem runLoop_t_le (E : EnvModel) (A : AgentModel) (iE : Bool) (tc : Nat)
    (fuel : Nat) (s : LoopState) (hs : s.t ≤ E.max_episode_steps) :
    (runLoop E A iE tc fuel s).t ≤ E.max_episode_steps :=
  runLoop_inv E A iE tc (fun st => st.t ≤ E.max_episode_steps)
    (fun _ _ hlt _ => Nat.succ_le_of_lt hlt) fuel s hs

theorem rolloutLoopRun_t_le (E : EnvModel) (A : AgentModel) (iE : Bool)
    (tc : Nat) : (rolloutLoopRun E A iE tc).t ≤ E.max_episode_steps :=
  runLoop_t_le E A iE tc E.max_episode_steps (initLoopState E)
    (Nat.zero_le _)

theorem runLoop_memory (E : EnvModel) (A : AgentModel) (iE : Bool) (tc : Nat)
    (fuel : Nat) (s : LoopState)
    (hlen : s.memory.length = s.t)
    (hmem : ∀ tr ∈ s.memory, ∃ x u r x2 d, tr = transitionFields x u r x2 d) :
    (runLoop E A iE tc fuel s).memory.length = (runLoop E A iE tc fuel s).t ∧
      ∀ tr ∈ (runLoop E A iE tc fuel s).memory,
        ∃ x u r x2 d, tr = transitionFields x u r x2 d := by
  refine runLoop_inv E A iE tc
    (fun st => st.memory.length = st.t ∧
      ∀ tr ∈ st.memory, ∃ x u r x2 d, tr = transitionFields x u r x2 d)
    ?_ fuel s ⟨hlen, hmem⟩
  intro st _ _ ⟨h1, h2⟩
  constructor
  · simp [stepOnce, h1]
  · intro tr htr
    simp only [stepOnce, List.mem_append, List.mem_singleton] at htr
    rcases htr with htr | htr
    · exact h2 tr htr
    · exact ⟨_, _, _, _, _, htr⟩

theorem runLoop_train_calls (E : EnvModel) (A : AgentModel) (iE : Bool)
    (tc : Nat) (fuel : Nat) (s : LoopState)
    (hs : s.train_calls = s.t * (if iE then 0 else tc)) :
    (runLoop E A iE tc fuel s).train_calls =
      (runLoop E A iE tc fuel s).t * (if iE then 0 else tc) := by
  refine runLoop_inv E A iE tc
    (fun st => st.train_calls = st.t * (if iE then 0 else tc)) ?_ fuel s hs
  intro st _ _ h
  show st.train_calls + (if iE then 0 else tc) =
    (st.t + 1) * (if iE then 0 else tc)
  rw [h, Nat.succ_mul]

/-- Invariants preserved by the train.py loop body are preserved by the
whole for loop. -/
theorem trainLoop_inv (E : TEnv) (Ag : TAgent) (scale : List ℚ → List ℚ)
    (isd : Bool) (P : TLoop → Prop)
    (hstep : ∀ s, P s → P (trainStepBody E Ag scale isd s)) :
    ∀ fuel s, P s → P (trainEpisodeLoop E Ag scale isd fuel s)
  | 0, _, hs => hs
  | fuel + 1, s, hs => by
    unfold trainEpisodeLoop
    split
    · exact hstep s hs
    · exact trainLoop_inv E Ag scale isd P hstep fuel _ (hstep s hs)

theorem trainLoop_i_le (E : TEnv) (Ag : TAgent) (scale : List ℚ → List ℚ)
    (isd : Bool) :
    ∀ fuel s, (trainEpisodeLoop E Ag scale isd fuel s).i ≤ s.i + fuel
  | 0, s => Nat.le_add_right _ _
  | fuel + 1, s => by
    unfold trainEpisodeLoop
    split
    · show s.i + 1 ≤ s.i + (fuel + 1)
      omega
    · have h := trainLoop_i_le E Ag scale isd fuel
        (trainStepBody E Ag scale isd s)
      have hb : (trainStepBody E Ag scale isd s).i = s.i + 1 := rfl
      omega

theorem trainLoop_train_calls (E : TEnv) (Ag : TAgent)
    (scale : List ℚ → List ℚ) (isd : Bool) (fuel : Nat) (s : TLoop)
    (hs : s.train_calls = 5 * s.i) :
    (trainEpisodeLoop E Ag scale isd fuel s).train_calls =
      5 * (trainEpisodeLoop E Ag scale isd fuel s).i := by
  refine trainLoop_inv E Ag scale isd (fun st => st.train_calls = 5 * st.i)
    ?_ fuel s hs
  intro st h
  show st.train_calls + 5 = 5 * (st.i + 1)
  rw [h, Nat.mul_succ]

theorem trainLoop_batch (E : TEnv) (Ag : TAgent) (scale : List ℚ → List ℚ)
    (isd : Bool) (fuel : Nat) (s : TLoop)
    (hlen : s.episode_batch.length = s.i)
    (hmem : ∀ tr ∈ s.episode_batch,
      ∃ o u r o2 d, tr = gTransitionFields o u r o2 d) :
    (trainEpisodeLoop E Ag scale isd fuel s).episode_batch.length =
        (trainEpisodeLoop E Ag scale isd fuel s).i ∧
      ∀ tr ∈ (trainEpisodeLoop E Ag scale isd fuel s).episode_batch,
        ∃ o u r o2 d, tr = gTransitionFields o u r o2 d := by
  refine trainLoop_inv E Ag scale isd
    (fun st => st.episode_batch.length = st.i ∧
      ∀ tr ∈ st.episode_batch, ∃ o u r o2 d, tr = gTransitionFields o u r o2 d)
    ?_ fuel s ⟨hlen, hmem⟩
  intro st ⟨h1, h2⟩
  constructor
  · simp [trainStepBody, h1]
  · intro tr htr
    simp only [trainStepBody, List.mem_append, List.mem_singleton] at htr
    rcases htr with htr | htr
    · exact h2 tr htr
    · exact ⟨_, _, _, _, _, htr⟩

/-- Membership of the best-score checkpoint in the saves of one
create_checkpoint call, characterized by the source condition. -/
theorem mem_B_create_checkpoint (s : GenState) :
    Ckpt.mk "B" s.episode ∈ (create_checkpoint s).2 ↔
      (s.eval = true ∧ s.save_best = true ∧ s.mean_er > s.best_score) := by
  have hne : ("B" : String) ≠ "P" := by decide
  unfold create_checkpoint
  by_cases h : s.eval = true ∧ s.save_best = true ∧ s.mean_er > s.best_score <;>
    by_cases hp : s.periodic_ckpt ≠ 0 ∧ s.episode % s.periodic_ckpt = 0 <;>
      simp [h, hp, Ckpt.mk.injEq, hne]

/-- Membership of the periodic checkpoint in the saves of one
create_checkpoint call, characterized by the source condition. -/
theorem mem_P_create_checkpoint (s : GenState) :
    Ckpt.mk "P" s.episode ∈ (create_checkpoint s).2 ↔
      (s.periodic_ckpt ≠ 0 ∧ s.episode % s.periodic_ckpt = 0) := by
  have hne : ("P" : String) ≠ "B" := by decide
  unfold create_checkpoint
  by_cases h : s.eval = true ∧ s.save_best = true ∧ s.mean_er > s.best_score <;>
    by_cases hp : s.periodic_ckpt ≠ 0 ∧ s.episode % s.periodic_ckpt = 0 <;>
      simp [h, hp, Ckpt.mk.injEq, hne]

/-- summary_step raises AttributeError exactly as update_summaries does,
whenever the (always-true) summary guard passes and no sink is configured. -/
theorem summary_step_no_sink (s2 : GenState) (L : LoopState)
    (hw : s2.summary_writer = false) (hsum : s2.summary.isSome = true) :
    summary_step s2 L = Except.error PyError.attributeError := by
  unfold summary_step update_summaries
  rw [if_pos hsum, if_neg (by simp [hw])]

/-! Concrete fixtures used by witnesses and counterexamples. -/

/-- A tiny deterministic environment: one step, terminal and successful. -/
def envEx : EnvModel :=
  { reset := ⟨[0], [1], [0]⟩
    step := fun _ _ => ⟨⟨[1], [1], [1]⟩, 1, true, true⟩
    max_episode_steps := 4 }

/-- A trivial agent oracle. -/
def agentEx : AgentModel :=
  { step := fun _ _ => ⟨[0], [0], 1⟩ }

/-- Training-mode generator with a summary sink configured. -/
def trainStateEx : GenState :=
  RolloutGenerator.init ⟨false, 2, 0, false, 3, none⟩ false true

/-- Evaluation-mode generator with a summary sink configured. -/
def evalStateEx : GenState :=
  RolloutGenerator.init ⟨false, 1, 0, true, 3, none⟩ true true

/-- Training-mode generator constructed with summary_writer=None. -/
def noSinkStateEx : GenState :=
  RolloutGenerator.init ⟨false, 2, 0, false, 3, none⟩ false false

/-- Training-mode generator whose episode budget is already exhausted. -/
def doneStateEx : GenState :=
  { trainStateEx with episode := 5 }

def emptyEffects : RolloutEffects :=
  ⟨0, [], 0, [], [], []⟩

/-- The successful result of one training rollout from trainStateEx. -/
def outEx : GenState × RolloutEffects :=
  (generate_rollout envEx agentEx trainStateEx).toOption.getD
    (trainStateEx, emptyEffects)

/-- The successful result of one evaluation rollout from evalStateEx. -/
def evalOutEx : GenState × RolloutEffects :=
  (generate_rollout envEx agentEx evalStateEx).toOption.getD
    (evalStateEx, emptyEffects)

/-- The successful result of one training rollout from doneStateEx. -/
def outDoneEx : GenState × RolloutEffects :=
  (generate_rollout envEx agentEx doneStateEx).toOption.getD
    (doneStateEx, emptyEffects)

/-! Claim theorems. -/

/-- Claim C1: in every create_checkpoint call, a best-score checkpoint
(category B, tagged with the current episode) is saved iff the generator is
in evaluation mode, save_best is enabled and the running mean episodic
reward strictly exceeds best_score; when saved, best_score becomes that
mean, otherwise it is unchanged.  Over running means [2.0, 1.5, 3.0] in
successive rollouts it fires at rollouts 1 and 3 only. -/
theorem best_ckpt_spec :
    (∀ s : GenState,
      ((Ckpt.mk "B" s.episode ∈ (create_checkpoint s).2) ↔
        (s.eval = true ∧ s.save_best = true ∧ s.mean_er > s.best_score)) ∧
      ((s.eval = true ∧ s.save_best = true ∧ s.mean_er > s.best_score) →
        (create_checkpoint s).1.best_score = s.mean_er) ∧
      (¬(s.eval = true ∧ s.save_best = true ∧ s.mean_er > s.best_score) →
        (create_checkpoint s).1.best_score = s.best_score)) ∧
    bestCkptFires [2, 3/2, 3] 0 1 = [1, 3] := by
  constructor
  · intro s
    refine ⟨mem_B_create_checkpoint s, fun h => ?_, fun h => ?_⟩
    · unfold create_checkpoint
      rw [if_pos h]
    · unfold create_checkpoint
      rw [if_neg h]
  · norm_num [bestCkptFires, evalCkptState, create_checkpoint,
      RolloutGenerator.init]

theorem best_ckpt_spec_witness :
    (create_checkpoint (evalCkptState 2 0 1)).1.best_score =
      (evalCkptState 2 0 1).mean_er ∧
    (create_checkpoint (evalCkptState (3/2) 2 2)).1.best_score =
      (evalCkptState (3/2) 2 2).best_score :=
  ⟨(best_ckpt_spec.1 (evalCkptState 2 0 1)).2.1
      ⟨rfl, rfl, by show (2 : ℚ) > 0; norm_num⟩,
   (best_ckpt_spec.1 (evalCkptState (3/2) 2 2)).2.2
      (by intro h; exact absurd h.2.2 (by show ¬ ((3/2 : ℚ) > 2); norm_num))⟩

/-- Claim C2: in every create_checkpoint call, a periodic checkpoint
(category P, tagged with the current episode) is saved exactly when
periodic_ckpt is truthy and divides the episode counter; with
periodic_ckpt = 5 over 12 episodes it fires at episodes 5 and 10 only. -/
theorem periodic_ckpt_spec :
    (∀ s : GenState,
      (Ckpt.mk "P" s.episode ∈ (create_checkpoint s).2) ↔
        (s.periodic_ckpt ≠ 0 ∧ s.episode % s.periodic_ckpt = 0)) ∧
    periodicFires 5 12 = [5, 10] := by
  refine ⟨mem_P_create_checkpoint, ?_⟩
  norm_num [periodicFires, create_checkpoint, RolloutGenerator.init,
    List.range_succ]
  decide

/-- Claim C9: the statement assert of the training branch asserts the
non-empty string literal itself (which is truthy in Python), not the
presence of a configuration key, so it never raises for any state. -/
theorem assert_noop_spec :
    train_branch_assert = Except.ok () ∧
    (∀ lit : String, lit.length ≠ 0 →
      pyAssertStmt (pyTruthyStr lit) = Except.ok ()) := by
  refine ⟨rfl, fun lit h => ?_⟩
  unfold pyAssertStmt pyTruthyStr
  rw [if_pos (decide_eq_true h)]

theorem assert_noop_spec_witness :
    pyAssertStmt (pyTruthyStr "x") = Except.ok () :=
  assert_noop_spec.2 "x" (by decide)

/-- Claim C3: done() returns true iff episode >= n_episodes; every
successful generate_rollout() call increments the episode counter by
exactly 1, so done is monotonic across generate_rollout calls. -/
theorem done_spec :
    (∀ s : GenState, s.done = true ↔ s.n_episodes ≤ s.episode) ∧
    (∀ (E : EnvModel) (A : AgentModel) (s : GenState)
        (out : GenState × RolloutEffects),
      generate_rollout E A s = Except.ok out →
        out.1.episode = s.episode + 1) ∧
    (∀ (E : EnvModel) (A : AgentModel) (s : GenState)
        (out : GenState × RolloutEffects),
      generate_rollout E A s = Except.ok out → s.done = true →
        out.1.done = true) := by
  have hep : ∀ (E : EnvModel) (A : AgentModel) (s : GenState)
      (out : GenState × RolloutEffects),
      generate_rollout E A s = Except.ok out →
        out.1.episode = s.episode + 1 ∧ out.1.n_episodes = s.n_episodes := by
    intro E A s out h
    unfold generate_rollout at h
    obtain ⟨succ, s4, -, hout, -, he, hn, -, -, -⟩ := post_loop_ok_shape s _ out h
    constructor
    · rw [hout, create_checkpoint_episode, he]
    · rw [hout, create_checkpoint_n_episodes, hn]
  refine ⟨fun s => by simp [GenState.done], fun E A s out h => (hep E A s out h).1,
    fun E A s out h hd => ?_⟩
  obtain ⟨h1, h2⟩ := hep E A s out h
  simp only [GenState.done, decide_eq_true_eq] at hd ⊢
  rw [h1, h2]
  omega

theorem done_spec_witness :
    outDoneEx.1.episode = doneStateEx.episode + 1 ∧ outDoneEx.1.done = true :=
  ⟨done_spec.2.1 envEx agentEx doneStateEx outDoneEx rfl,
   done_spec.2.2 envEx agentEx doneStateEx outDoneEx rfl rfl⟩

/-- Claim C4: every environment step of a rollout records exactly one
transition to agent memory, in both modes and regardless of the done flag,
and it is the 8-field list (observation, goal, achieved-goal, action,
reward, next-observation, next-goal, done-flag) in that order; likewise for
the per-step episode_batch entries of the script-level train loop. -/
theorem transitions_spec :
    (∀ (E : EnvModel) (A : AgentModel) (iE : Bool) (tc : Nat),
      (rolloutLoopRun E A iE tc).memory.length = (rolloutLoopRun E A iE tc).t ∧
      ∀ tr ∈ (rolloutLoopRun E A iE tc).memory,
        tr.length = 8 ∧ ∃ x u r x2 d, tr = transitionFields x u r x2 d) ∧
    (∀ (x : Obs) (u : List ℚ) (r : ℚ) (x2 : Obs) (d : Bool),
      transitionFields x u r x2 d =
        [Field.arr x.observation, Field.arr x.desired_goal,
         Field.arr x.achieved_goal, Field.arr u, Field.num r,
         Field.arr x2.observation, Field.arr x2.desired_goal,
         Field.int (if d then 1 else 0)]) ∧
    (∀ (E : TEnv) (Ag : TAgent) (scale : List ℚ → List ℚ) (isd : Bool),
      (trainEpisodeRun E Ag scale isd).episode_batch.length =
          (trainEpisodeRun E Ag scale isd).i ∧
      ∀ tr ∈ (trainEpisodeRun E Ag scale isd).episode_batch,
        tr.length = 8 ∧ ∃ o u r o2 d, tr = gTransitionFields o u r o2 d) := by
  refine ⟨?_, fun _ _ _ _ _ => rfl, ?_⟩
  · intro E A iE tc
    obtain ⟨h1, h2⟩ := runLoop_memory E A iE tc E.max_episode_steps
      (initLoopState E) rfl (fun tr htr => absurd htr (List.not_mem_nil tr))
    refine ⟨h1, fun tr htr => ?_⟩
    obtain ⟨x, u, r, x2, d, he⟩ := h2 tr htr
    exact ⟨by rw [he]; rfl, x, u, r, x2, d, he⟩
  · intro E Ag scale isd
    obtain ⟨h1, h2⟩ := trainLoop_batch E Ag scale isd E.max_episode_steps
      { i := 0, obs := E.reset, episodic_r := 0, episodic_q := 0
        episode_batch := [], train_calls := 0
        min_d2goal := E.get_current_distance, doneFlag := false }
      rfl (fun tr htr => absurd htr (List.not_mem_nil tr))
    refine ⟨h1, fun tr htr => ?_⟩
    obtain ⟨o, u, r, o2, d, he⟩ := h2 tr htr
    exact ⟨by rw [he]; rfl, o, u, r, o2, d, he⟩

theorem transitions_spec_witness :
    ((rolloutLoopRun envEx agentEx false 2).memory.getD 0 []).length = 8 :=
  (((transitions_spec.1 envEx agentEx false 2)).2
    ((rolloutLoopRun envEx agentEx false 2).memory.getD 0 [])
    (by decide)).1

/-- Claim C5: per environment step the generator calls agent.train()
exactly train_cycles_per_ts times outside evaluation mode and zero times in
evaluation mode; the script-level train loop calls it exactly 5 times per
step, independently of any configuration. -/
theorem train_calls_spec :
    (∀ (E : EnvModel) (A : AgentModel) (iE : Bool) (tc : Nat) (s : LoopState),
      (stepOnce E A iE tc s).train_calls =
        s.train_calls + (if iE then 0 else tc)) ∧
    (∀ (E : EnvModel) (A : AgentModel) (iE : Bool) (tc : Nat),
      (rolloutLoopRun E A iE tc).train_calls =
        (rolloutLoopRun E A iE tc).t * (if iE then 0 else tc)) ∧
    (∀ (E : EnvModel) (A : AgentModel) (tc : Nat),
      (rolloutLoopRun E A true tc).train_calls = 0) ∧
    (∀ (E : TEnv) (Ag : TAgent) (scale : List ℚ → List ℚ) (isd : Bool)
        (s : TLoop),
      (trainStepBody E Ag scale isd s).train_calls = s.train_calls + 5) ∧
    (∀ (E : TEnv) (Ag : TAgent) (scale : List ℚ → List ℚ) (isd : Bool),
      (trainEpisodeRun E Ag scale isd).train_calls =
        5 * (trainEpisodeRun E Ag scale isd).i) := by
  have hloop : ∀ (E : EnvModel) (A : AgentModel) (iE : Bool) (tc : Nat),
      (rolloutLoopRun E A iE tc).train_calls =
        (rolloutLoopRun E A iE tc).t * (if iE then 0 else tc) := by
    intro E A iE tc
    exact runLoop_train_calls E A iE tc E.max_episode_steps (initLoopState E)
      (by simp [initLoopState])
  refine ⟨fun _ _ _ _ _ => rfl, hloop, ?_, fun _ _ _ _ _ => rfl, ?_⟩
  · intro E A tc
    have h := hloop E A true tc
    simpa using h
  · intro E Ag scale isd
    exact trainLoop_train_calls E Ag scale isd E.max_episode_steps _ rfl

/-- Claim C8: every generate_rollout call terminates (the loop is bounded
by max_episode_steps, which the fuel of the embedding witnesses) and takes
at most env.max_episode_steps environment steps; likewise each episode of
the script-level train loop takes at most env._max_episode_steps steps. -/
theorem step_bound_spec :
    (∀ (E : EnvModel) (A : AgentModel) (iE : Bool) (tc : Nat),
      (rolloutLoopRun E A iE tc).t ≤ E.max_episode_steps) ∧
    (∀ (E : TEnv) (Ag : TAgent) (scale : List ℚ → List ℚ) (isd : Bool),
      (trainEpisodeRun E Ag scale isd).i ≤ E.max_episode_steps) := by
  refine ⟨rolloutLoopRun_t_le, fun E Ag scale isd => ?_⟩
  have h := trainLoop_i_le E Ag scale isd E.max_episode_steps
    { i := 0, obs := E.reset, episodic_r := 0, episodic_q := 0
      episode_batch := [], train_calls := 0
      min_d2goal := E.get_current_distance, doneFlag := false }
  simpa using h

/-- Claim C6 (amended): at the end of every successful generate_rollout
call, the success counter is incremented by 1 iff the generator is in
evaluation mode AND the final step's info signaled success; in training
mode it is never incremented, whatever the final info says. -/
theorem success_spec :
    ∀ (E : EnvModel) (A : AgentModel) (s : GenState)
      (out : GenState × RolloutEffects),
      generate_rollout E A s = Except.ok out →
      out.1.success = s.success +
        (if s.eval = true ∧
            (rolloutLoopRun E A s.eval s.train_cycles_per_ts).lastInfo =
              some true
         then 1 else 0) := by
  intro E A s out h
  unfold generate_rollout at h
  obtain ⟨succ, s4, hinfo, hout, -, -, -, -, -, hs⟩ := post_loop_ok_shape s _ out h
  rw [hout, create_checkpoint_success, hs, hinfo]
  congr 1
  by_cases hv : s.eval = true <;> by_cases hs2 : succ = true <;>
    simp [hv, hs2]

theorem success_spec_witness :
    evalOutEx.1.success = evalStateEx.success +
      (if evalStateEx.eval = true ∧
          (rolloutLoopRun envEx agentEx evalStateEx.eval
            evalStateEx.train_cycles_per_ts).lastInfo = some true
       then 1 else 0) :=
  success_spec envEx agentEx evalStateEx evalOutEx rfl

/-- Claim C6 counterexample: a training-mode rollout whose final step
signals success completes successfully yet leaves the success counter at 0,
refuting the claim that the counter is incremented in either mode whenever
the final info signals success. -/
theorem success_claim_counterexample :
    generate_rollout envEx agentEx trainStateEx = Except.ok outEx ∧
    (rolloutLoopRun envEx agentEx trainStateEx.eval
        trainStateEx.train_cycles_per_ts).lastInfo = some true ∧
    trainStateEx.eval = false ∧
    trainStateEx.success = 0 ∧
    outEx.1.success = 0 :=
  ⟨rfl, rfl, rfl, rfl, rfl⟩

/-- Claim C7: the summary guard of generate_rollout tests self.summary,
which __init__ always sets to a fresh tf.Summary (never None), so the guard
always passes; consequently a generator configured without a summary sink
does not complete the episode quietly but raises AttributeError inside
update_summaries. -/
theorem summary_guard_spec :
    (∀ (cfg : Config) (e w : Bool),
      (RolloutGenerator.init cfg e w).summary = some ()) ∧
    noSinkStateEx.summary_writer = false ∧
    generate_rollout envEx agentEx noSinkStateEx =
      Except.error PyError.attributeError ∧
    (∀ (E : EnvModel) (A : AgentModel) (s : GenState),
      s.summary_writer = false → s.summary = some () →
      generate_rollout E A s = Except.error PyError.attributeError) := by
  have hgen : ∀ (E : EnvModel) (A : AgentModel) (s : GenState),
      s.summary_writer = false → s.summary = some () →
      generate_rollout E A s = Except.error PyError.attributeError := by
    intro E A s hw hsum
    unfold generate_rollout post_loop
    rw [summary_step_no_sink _ _ ?_ ?_]
    · rw [(after_stats_fields s _).2.2.2.2.2.2.2, hw]
    · rw [(after_stats_fields s _).2.2.2.2.2.2.1, hsum]
      rfl
  exact ⟨fun _ _ _ => rfl, rfl, hgen envEx agentEx noSinkStateEx rfl rfl, hgen⟩

theorem summary_guard_spec_witness :
    generate_rollout envEx agentEx noSinkStateEx =
      Except.error PyError.attributeError :=
  summary_guard_spec.2.2.2 envEx agentEx noSinkStateEx rfl rfl

/-- Claim C10: best_score starts at 0 and is monotonically non-decreasing:
create_checkpoint either leaves it unchanged or raises it to a strictly
larger running mean; update_stats, reset and successful generate_rollout
calls never lower it; the script-level current_best_eval_score update
behaves identically; it stays >= 0, and no best checkpoint is saved while
the running mean evaluation reward is <= 0. -/
theorem best_score_invariant_spec :
    (∀ (cfg : Config) (e w : Bool),
      (RolloutGenerator.init cfg e w).best_score = 0) ∧
    (∀ s : GenState, (create_checkpoint s).1 = s ∨
      ((create_checkpoint s).1 = { s with best_score := s.mean_er } ∧
        s.best_score < s.mean_er)) ∧
    (∀ (s : GenState) (q r : ℚ) (t : Nat),
      (update_stats s q r t).best_score = s.best_score) ∧
    (∀ s : GenState, s.reset.best_score = s.best_score) ∧
    (∀ (E : EnvModel) (A : AgentModel) (s : GenState)
        (out : GenState × RolloutEffects),
      generate_rollout E A s = Except.ok out →
        s.best_score ≤ out.1.best_score) ∧
    (∀ (b m : ℚ) (ep : Nat),
      b ≤ (best_eval_update b m ep).1 ∧
      ((best_eval_update b m ep).1 = b ∨
        ((best_eval_update b m ep).1 = m ∧ b < m))) ∧
    (∀ s : GenState, 0 ≤ s.best_score →
      0 ≤ (create_checkpoint s).1.best_score) ∧
    (∀ s : GenState, 0 ≤ s.best_score → s.mean_er ≤ 0 →
      ((create_checkpoint s).1.best_score = s.best_score ∧
        Ckpt.mk "B" s.episode ∉ (create_checkpoint s).2)) := by
  refine ⟨fun _ _ _ => rfl, create_checkpoint_fst_cases, fun _ _ _ _ => rfl,
    fun _ => rfl, ?_, ?_, ?_, ?_⟩
  · intro E A s out h
    unfold generate_rollout at h
    obtain ⟨succ, s4, -, hout, -, -, -, -, hb, -⟩ := post_loop_ok_shape s _ out h
    rw [hout, ← hb]
    exact create_checkpoint_best_mono s4
  · intro b m ep
    unfold best_eval_update
    by_cases h : m > b
    · rw [if_pos h]
      exact ⟨le_of_lt h, Or.inr ⟨rfl, h⟩⟩
    · rw [if_neg h]
      exact ⟨le_refl b, Or.inl rfl⟩
  · intro s h
    exact h.trans (create_checkpoint_best_mono s)
  · intro s h0 hm
    have hno : ¬(s.eval = true ∧ s.save_best = true ∧ s.mean_er > s.best_score) := by
      intro hc
      exact absurd (lt_of_le_of_lt (hm.trans h0) hc.2.2) (lt_irrefl _)
    constructor
    · unfold create_checkpoint
      rw [if_neg hno]
    · intro hmem
      exact hno ((mem_B_create_checkpoint s).mp hmem)

theorem best_score_invariant_spec_witness :
    trainStateEx.best_score ≤ outEx.1.best_score ∧
    0 ≤ (create_checkpoint (evalCkptState (-1) 0 2)).1.best_score ∧
    ((create_checkpoint (evalCkptState (-1) 0 2)).1.best_score =
        (evalCkptState (-1) 0 2).best_score ∧
      Ckpt.mk "B" (evalCkptState (-1) 0 2).episode ∉
        (create_checkpoint (evalCkptState (-1) 0 2)).2) :=
  ⟨best_score_invariant_spec.2.2.2.2.1 envEx agentEx trainStateEx outEx rfl,
   best_score_invariant_spec.2.2.2.2.2.2.1 (evalCkptState (-1) 0 2)
     (by show (0 : ℚ) ≤ 0; norm_num),
   best_score_invariant_spec.2.2.2.2.2.2.2 (evalCkptState (-1) 0 2)
     (by show (0 : ℚ) ≤ 0; norm_num) (by show (-1 : ℚ) ≤ 0; norm_num)⟩

end DDPG
